import Mathlib

/-!
Verification of the slack-modbot repository: a shallow embedding of the
extension registry (`modbot_extension.py`), the Keywords extension
(`modbot_extensions/modbot_keywords.py`) and the top-level dispatcher
(`modbot.py`), with theorems settling the frozen claims.

Text is modelled as `List Char` (`Str`), so that every operation reduces in
the kernel.  Python dictionaries are modelled as association lists with
insertion-order iteration and update-in-place semantics, matching CPython.
Outbound collaborators (the Slack web client, the config file, the wall
clock) are explicit parameters: `users` models `users_info`, `imOpen`
models `conversations_open`, `saveOk` models whether the config-file write
in `save_config` succeeds, and `now` is the clock read.
-/

namespace Modbot

/-- Text, modelled as a list of characters so kernel evaluation works. -/
abbrev Str := List Char

/-- Character list of a string literal. -/
def str (s : String) : Str := s.data

/-- Models Python `str.lower` on the character range this codebase handles:
ASCII letters plus the accented letters appearing in `_sanitize_text`. -/
def pyLowerChar (c : Char) : Char :=
  if c = 'À' then 'à' else if c = 'Ä' then 'ä' else if c = 'Â' then 'â'
  else if c = 'É' then 'é' else if c = 'È' then 'è' else if c = 'Ë' then 'ë'
  else if c = 'Ê' then 'ê' else if c = 'Ï' then 'ï'
  else if c = 'Ö' then 'ö' else if c = 'Ô' then 'ô'
  else if c = 'Ù' then 'ù' else if c = 'Ü' then 'ü' else if c = 'Û' then 'û'
  else if 'A' ≤ c ∧ c ≤ 'Z' then Char.ofNat (c.toNat + 32) else c

/-- Models Python `str.lower`. -/
def lowerStr (s : Str) : Str := s.map pyLowerChar

/-- Recursion core of `replaceStr`; the fuel argument (instantiated with
the text length, an upper bound on the number of steps) only makes the
recursion structural, so that applications reduce definitionally. -/
def replaceStrFuel (pat rep : Str) : Nat → Str → Str
  | _, [] => []
  | 0, s => s
  | fuel + 1, c :: rest =>
    if pat.isPrefixOf (c :: rest) ∧ pat ≠ [] then
      rep ++ replaceStrFuel pat rep fuel (rest.drop (pat.length - 1))
    else
      c :: replaceStrFuel pat rep fuel rest

/-- Models Python `str.replace(pat, rep)`: replace every (non-overlapping,
left-to-right) occurrence of `pat` by `rep`.  A [] pattern is a no-op here;
the source never replaces an empty pattern. -/
def replaceStr (pat rep : Str) (s : Str) : Str :=
  replaceStrFuel pat rep s.length s

/-- Models Python `pat in s` (substring containment). -/
def containsSub (pat : Str) : Str → Bool
  | [] => pat.isPrefixOf []
  | c :: rest => pat.isPrefixOf (c :: rest) || containsSub pat rest

/-- Auxiliary for `splitSp`. -/
def splitSpAux (acc : Str) : Str → List Str
  | [] => [acc.reverse]
  | c :: rest =>
    if c = ' ' then acc.reverse :: splitSpAux [] rest
    else splitSpAux (c :: acc) rest

/-- Models Python `s.split(' ')`: split on each single space character,
keeping empty fields. -/
def splitSp (s : Str) : List Str := splitSpAux [] s

/-- Models Python `sep.join(parts)`. -/
def joinSep (sep : Str) : List Str → Str
  | [] => []
  | [x] => x
  | x :: xs => x ++ sep ++ joinSep sep xs

/-- Python dict lookup `d[k]` (as an Option). -/
def alistLookup {α : Type} (k : Str) : List (Str × α) → Option α
  | [] => none
  | (k1, v) :: rest => if k1 = k then some v else alistLookup k rest

/-- Python `k in d`. -/
def alistHasKey {α : Type} (k : Str) (l : List (Str × α)) : Bool :=
  (alistLookup k l).isSome

/-- Python dict assignment `d[k] = v`: update in place keeping the key's
position, else append (CPython insertion-order semantics). -/
def alistInsert {α : Type} (k : Str) (v : α) : List (Str × α) → List (Str × α)
  | [] => [(k, v)]
  | (k1, v1) :: rest =>
    if k1 = k then (k, v) :: rest else (k1, v1) :: alistInsert k v rest

/-- Python `del d[k]` (keys are unique in a dict, so removing the first
occurrence suffices). -/
def alistErase {α : Type} (k : Str) : List (Str × α) → List (Str × α)
  | [] => []
  | (k1, v1) :: rest =>
    if k1 = k then rest else (k1, v1) :: alistErase k rest

/-- In-place update of the value stored under a key. -/
def alistUpdate {α : Type} (k : Str) (f : α → α) :
    List (Str × α) → List (Str × α)
  | [] => []
  | (k1, v1) :: rest =>
    if k1 = k then (k1, f v1) :: rest else (k1, v1) :: alistUpdate k f rest

/-- The `character_replacements` table of `Keywords._sanitize_text`, in
CPython dict insertion order: the accent map first (the duplicated `ï` entry
collapses to one), then the formatting map merged by `update`. -/
def characterReplacements : List (Str × Str) :=
  [(str "à", str "a"), (str "ä", str "a"), (str "â", str "a"),
   (str "é", str "e"), (str "è", str "e"), (str "ë", str "e"),
   (str "ê", str "e"),
   (str "ï", str "i"),
   (str "ö", str "o"), (str "ô", str "o"),
   (str "ù", str "u"), (str "ü", str "u"), (str "û", str "u"),
   (str "**", str ""), (str "*", str ""), (str "__", str ""),
   (str "_", str ""), (str "```", str ""), (str "`", str "")]

/-- `Keywords._sanitize_text(text)` with `only_formatting=False`: lowercase,
then apply each replacement over the whole text, in table order. -/
def sanitizeText (t : Str) : Str :=
  characterReplacements.foldl (fun s p => replaceStr p.1 p.2 s) (lowerStr t)

/-- One pass of the `only_formatting` loop body: strip the pattern once from
the front if it is a prefix, then once from the back if it is a suffix. -/
def stripOnce (p : Str × Str) (s : Str) : Str :=
  let s1 := if p.1.isPrefixOf s then s.drop p.1.length else s
  if p.1.isSuffixOf s1 then s1.take (s1.length - p.1.length) else s1

/-- `Keywords._sanitize_text(text, only_formatting=True)`. -/
def sanitizeOnlyFormatting (t : Str) : Str :=
  characterReplacements.foldl (fun s p => stripOnce p s) (lowerStr t)

/-! ## Inbound events and user identity (§ modbot_extension.py) -/

/-- A Slack `message` event, with the fields the code reads. -/
structure Event where
  channel : Str
  channel_type : Str
  user : Str
  text : Str
  ts : Str
  thread_ts : Option Str
  subtype : Option Str
deriving DecidableEq

/-- The user profile fields read by the authorization predicates, as
returned by the `users_info` collaborator. -/
structure UserInfo where
  is_admin : Bool
  is_owner : Bool
deriving DecidableEq

/-- `ModbotExtension.user_is_admin`: the admin flag of the looked-up user,
`False` when the lookup fails.  `users` is the upstream directory behind
`get_user_info` (the cache is value-transparent when the upstream is
stable; its timing behavior is modelled separately below). -/
def userIsAdmin (users : Str → Option UserInfo) (u : Str) : Bool :=
  match users u with
  | some d => d.is_admin
  | none => false

/-- `ModbotExtension.user_is_owner`. -/
def userIsOwner (users : Str → Option UserInfo) (u : Str) : Bool :=
  match users u with
  | some d => d.is_owner
  | none => false

/-! ## Identity cache (`ModbotExtension.get_user_info`) -/

/-- The `state` dict of `ModbotExtension` restricted to its `users` part,
plus the `state_last_refresh` watermark (seconds). -/
structure CacheState where
  users : List (Str × UserInfo)
  last_refresh : Nat
deriving DecidableEq

/-- Result of one `get_user_info` call: the value returned (`found`, where
`none` models the `False` return), the updated cache, and how many upstream
`users_info` calls were made (0 or 1). -/
structure LookupResult where
  found : Option UserInfo
  state : CacheState
  upstreamCalls : Nat
deriving DecidableEq

/-- `ModbotExtension.get_user_info`, with the wall clock (`now`) and the
upstream directory explicit.  Note that the expiry branch clears
`state['users']` but does NOT touch `state_last_refresh`, exactly as in the
source. -/
def get_user_info (upstream : Str → Option UserInfo) (now : Nat)
    (st : CacheState) (u : Str) : LookupResult :=
  let st1 := if st.last_refresh + 60 * 10 < now then
               { users := [], last_refresh := st.last_refresh }
             else st
  match alistLookup u st1.users with
  | some d => { found := some d, state := st1, upstreamCalls := 0 }
  | none =>
    match upstream u with
    | some d =>
      { found := some d,
        state := { st1 with users := alistInsert u d st1.users },
        upstreamCalls := 1 }
    | none => { found := none, state := st1, upstreamCalls := 1 }

/-! ## Extension store (`ExtensionStore`) -/

/-- Python exceptions that the modelled code can raise. -/
inductive PyErr where
  | keyError
  | attributeError
  | typeError
deriving DecidableEq

/-- One record of `ExtensionStore.extensions` (the `class`/`instance`
handles carry no observable state beyond the `loaded` flag). -/
structure ExtRecord where
  loaded : Bool
  enabled : Bool
  enabled_for_im : Bool
  enabled_for_channels : List Str
deriving DecidableEq

/-- The store itself: a dict keyed by (lower-cased, see
`register_extension`) extension name. -/
abbrev ExtStore := List (Str × ExtRecord)

/-- The fresh record `register_extension` creates. -/
def freshRecord : ExtRecord :=
  { loaded := false, enabled := false, enabled_for_im := true,
    enabled_for_channels := [] }

/-- `ExtensionStore.register_extension`.  Mirrors the source exactly: the
membership test uses the RAW class name (`extension_class.name not in
self.extensions`) while the insertion key is lower-cased
(`extension_class.name.lower()`). -/
def register_extension (store : ExtStore) (name : Str) : ExtStore :=
  if alistHasKey name store then store
  else alistInsert (lowerStr name) freshRecord store

/-- `ExtensionStore.is_registered`. -/
def is_registered (store : ExtStore) (name : Str) : Bool :=
  alistHasKey (lowerStr name) store

/-- `ExtensionStore.is_loaded` (the `and` short-circuits, so the lookup is
only reached for registered names). -/
def is_loaded (store : ExtStore) (name : Str) : Bool :=
  match alistLookup (lowerStr name) store with
  | some r => r.loaded
  | none => false

/-- `ExtensionStore.is_enabled`. -/
def is_enabled (store : ExtStore) (name : Str) : Bool :=
  match alistLookup (lowerStr name) store with
  | some r => r.enabled
  | none => false

/-- `ExtensionStore.load_extension`: `False` if unregistered; marks the
record loaded (attaching the instance) if not yet loaded; returns `True`
either way once registered. -/
def load_extension (store : ExtStore) (name : Str) : Bool × ExtStore :=
  if ¬ is_registered store name then (false, store)
  else if ¬ is_loaded store name then
    (true, alistUpdate (lowerStr name) (fun r => { r with loaded := true }) store)
  else (true, store)

/-- `ExtensionStore.enable_extension`. -/
def enable_extension (store : ExtStore) (name : Str) : Bool × ExtStore :=
  if ¬ is_registered store name then (false, store)
  else if ¬ is_loaded store name then (false, store)
  else (true, alistUpdate (lowerStr name) (fun r => { r with enabled := true }) store)

/-- `ExtensionStore.disable_extension`. -/
def disable_extension (store : ExtStore) (name : Str) : Bool × ExtStore :=
  if ¬ is_registered store name then (false, store)
  else if ¬ is_enabled store name then (false, store)
  else (true, alistUpdate (lowerStr name) (fun r => { r with enabled := false }) store)

/-- `ExtensionStore.enable_extension_for`: adds a channel id to the
allow-set (Python `set.add`). -/
def enable_extension_for (store : ExtStore) (name channel : Str) :
    Bool × ExtStore :=
  if ¬ is_registered store name then (false, store)
  else if ¬ is_loaded store name then (false, store)
  else
    (true,
     alistUpdate (lowerStr name)
       (fun r =>
         if channel ∈ r.enabled_for_channels then r
         else { r with enabled_for_channels := r.enabled_for_channels ++ [channel] })
       store)

/-- `ExtensionStore.disable_extension_for`: Python `set.remove` raises
`KeyError` when the channel is not in the set. -/
def disable_extension_for (store : ExtStore) (name channel : Str) :
    Except PyErr (Bool × ExtStore) :=
  if ¬ is_registered store name then .ok (false, store)
  else if ¬ is_enabled store name then .ok (false, store)
  else
    match alistLookup (lowerStr name) store with
    | some r =>
      if channel ∈ r.enabled_for_channels then
        .ok (true,
             alistUpdate (lowerStr name)
               (fun r1 => { r1 with
                 enabled_for_channels := r1.enabled_for_channels.filter (· ≠ channel) })
               store)
      else .error .keyError
    | none => .ok (false, store)

/-- `ExtensionStore.enable_extension_for_im`. -/
def enable_extension_for_im (store : ExtStore) (name : Str) : Bool × ExtStore :=
  if ¬ is_registered store name then (false, store)
  else if ¬ is_loaded store name then (false, store)
  else (true, alistUpdate (lowerStr name) (fun r => { r with enabled_for_im := true }) store)

/-- `ExtensionStore.disable_extension_for_im` (guarded by registered and
ENABLED, as in the source). -/
def disable_extension_for_im (store : ExtStore) (name : Str) : Bool × ExtStore :=
  if ¬ is_registered store name then (false, store)
  else if ¬ is_enabled store name then (false, store)
  else (true, alistUpdate (lowerStr name) (fun r => { r with enabled_for_im := false }) store)

/-- `ExtensionStore.is_enabled_for`.  The source evaluates
`ext = self.extensions[name.lower()]` BEFORE its `is_registered` guard, so
an unregistered name raises `KeyError` instead of reaching the
`return False`. -/
def is_enabled_for (store : ExtStore) (name : Str) (ev : Event) :
    Except PyErr Bool :=
  match alistLookup (lowerStr name) store with
  | none => .error .keyError
  | some ext =>
    .ok (if is_registered store name ∧ ext.enabled then
           (if ev.channel_type = str "im" then ext.enabled_for_im
            else decide (ev.channel ∈ ext.enabled_for_channels))
         else false)

/-- `ExtensionStore.is_enabled_in_im` (same lookup-before-guard shape). -/
def is_enabled_in_im (store : ExtStore) (name : Str) : Except PyErr Bool :=
  match alistLookup (lowerStr name) store with
  | none => .error .keyError
  | some ext =>
    .ok (if is_registered store name ∧ ext.enabled then ext.enabled_for_im
         else false)

/-- `ExtensionStore.list_enabled_for`; `none` models the `False` return. -/
def list_enabled_for (store : ExtStore) (name : Str) :
    Except PyErr (Option (List Str)) :=
  match alistLookup (lowerStr name) store with
  | none => .error .keyError
  | some ext =>
    .ok (if is_registered store name ∧ ext.enabled then
           some ext.enabled_for_channels
         else none)

/-! ## Top-level dispatcher (`modbot.py`, the `message` callback) -/

/-- Where one inbound payload was routed and which extensions' hooks ran. -/
inductive Routed where
  | ignoredOld
  | deletionHooks (receivers : List Str)
  | changedHooks (receivers : List Str)
  | ignoredSelf
  | messageHooks (receivers : List Str)
deriving DecidableEq

/-- The extensions the dispatch loops visit: every key of the store for
which `is_enabled` holds, in store order. -/
def enabled_receivers (store : ExtStore) : List Str :=
  (store.filter (fun kv => is_enabled store kv.1)).map (fun kv => kv.1)

/-- The `message` callback of `modbot.py`: drop stale events, route the
deletion/edit subtypes, drop the bot's own messages, and otherwise hand the
event to `on_message` of every extension for which `is_enabled` holds —
`is_enabled_for` is never consulted. -/
def modbot_message (store : ExtStore) (start_time : Nat) (bot_user : Str)
    (event_time : Nat) (ev : Event) : Routed :=
  if event_time < start_time then .ignoredOld
  else if ev.subtype = some (str "message_deleted") then
    .deletionHooks (enabled_receivers store)
  else if ev.subtype = some (str "message_changed") then
    .changedHooks (enabled_receivers store)
  else if ev.user = bot_user then .ignoredSelf
  else .messageHooks (enabled_receivers store)

/-! ## The Keywords extension (`modbot_extensions/modbot_keywords.py`) -/

/-- A value of the `keywords` dict: plain text, or a channel list signalling
template rendering (the code distinguishes them by `isinstance(_, str)`). -/
inductive KwReply where
  | text (s : Str)
  | channels (l : List Str)
deriving DecidableEq

/-- The `config_data` dict of `Keywords` (all four values are booleans). -/
structure KwConfig where
  reply_in_thread : Bool
  reply_in_ephemeral : Bool
  reply_to_keywords_by_admins : Bool
  reply_to_replies : Bool
deriving DecidableEq

/-- The class-level defaults of `Keywords.config_data`. -/
def sourceDefaultConfig : KwConfig :=
  { reply_in_thread := true, reply_in_ephemeral := false,
    reply_to_keywords_by_admins := true, reply_to_replies := false }

/-- The mutable state of a `Keywords` instance: the keyword table, the
config toggles and the quickadd template. -/
structure KwState where
  keywords : List (Str × KwReply)
  config_data : KwConfig
  keyword_template_text : Str
deriving DecidableEq

/-- An outbound call made by `_send_reply_message` (or by the extension
manager's sender): `postMessage` models `chat_postMessage` — with the
`user` field present for the regular variant and the `thread_ts` field for
the threaded variant — and `postEphemeral` models `chat_postEphemeral`. -/
inductive Delivery where
  | postMessage (channel : Str) (user : Option Str) (thread_ts : Option Str)
      (text : Str)
  | postEphemeral (channel : Str) (user : Str) (text : Str)
deriving DecidableEq

/-- A `reply_data` dict as returned by a handler: the `type` value when the
handler sets one, a `channel` override (only `switch_to_im` sets one), and
the reply text.  `ready_to_send` is implied by the dict being returned at
all (handlers that return `False` are modelled by `none`). -/
structure ReplyData where
  rtype : Option (List Str)
  channel : Option Str
  text : Str
deriving DecidableEq

/-- A handler reply of type `regular`. -/
def regularReply (t : Str) : ReplyData :=
  { rtype := some [str "regular"], channel := none, text := t }

/-- What one configuration handler did: the state it left behind, its
`reply_data` (`none` both for a `False` return and for an escaped
exception), how many `save_config` calls it attempted, and whether an
exception escaped (a failed config-file write, or a missing attribute). -/
structure HandlerOut where
  state : KwState
  reply : Option ReplyData
  saves : Nat
  exc : Bool
deriving DecidableEq

/-- `replies['keyword_add_missing_param']` (and the identical
quickadd/template/delete variants). -/
def didntUnderstandText : Str :=
  str "I didn\x27t understand your request, could you retry?"

/-- `replies['config_in_public']`. -/
def configInPublicText : Str :=
  str "Hello!\nPlease configure me here, not in public (I\x27m a bit shy...)"

/-- `Keywords.keyword_list` (reads the state, never mutates): renders the
plain keywords block and the template-keywords block into the
`keyword_list` reply. -/
def keyword_list (st : KwState) : HandlerOut :=
  let plain := joinSep (str "\n")
    ((st.keywords.filterMap (fun kv =>
        match kv.2 with
        | .text m => some (str "*" ++ kv.1 ++ str "* : " ++ m)
        | .channels _ => none)))
  let templated := joinSep (str ", ")
    ((st.keywords.filterMap (fun kv =>
        match kv.2 with
        | .text _ => none
        | .channels l => some (str "*" ++ kv.1 ++ str "* : #" ++ joinSep (str " #") l))))
  let body := str "Here is the list of configured keywords\n*Keywords without templates*\n{keywords}\n\n*Keywords that use the template*\n{template_keywords}"
  { state := st,
    reply := some (regularReply
      (replaceStr (str "{template_keywords}") templated
        (replaceStr (str "{keywords}") plain body))),
    saves := 0, exc := false }

/-- `Keywords.keyword_add`.  `saveOk` tells whether the `save_config` file
write succeeds; when it fails the `IOError` escapes AFTER the in-memory
table was already mutated, so the mutated state is kept and no reply is
produced. -/
def keyword_add (ev : Event) (st : KwState) (saveOk : Bool) : HandlerOut :=
  let toks := splitSp ev.text
  if toks.length < 4 then
    { state := st, reply := some (regularReply didntUnderstandText),
      saves := 0, exc := false }
  else
    let kw := lowerStr (toks.getD 2 [])
    let message := joinSep (str " ") (toks.drop 3)
    let st1 := { st with keywords := alistInsert kw (KwReply.text message) st.keywords }
    if saveOk then
      { state := st1,
        reply := some (regularReply
          (replaceStr (str "{keyword}") kw (str "Thanks! I\x27ll reply to {keyword} now"))),
        saves := 1, exc := false }
    else
      { state := st1, reply := none, saves := 1, exc := true }

/-- `Keywords.keyword_quickadd`. -/
def keyword_quickadd (ev : Event) (st : KwState) (saveOk : Bool) : HandlerOut :=
  let toks := splitSp ev.text
  if toks.length < 4 then
    { state := st, reply := some (regularReply didntUnderstandText),
      saves := 0, exc := false }
  else
    let kw := lowerStr (toks.getD 2 [])
    let chans := (toks.drop 3).filter
      (fun c => (str "<").isPrefixOf c && (str ">").isSuffixOf c)
    if chans = [] then
      { state := st,
        reply := some (regularReply (str "I didn\x27t see a link to a channel in your request")),
        saves := 0, exc := false }
    else
      let st1 := { st with keywords := alistInsert kw (KwReply.channels chans) st.keywords }
      if saveOk then
        { state := st1,
          reply := some (regularReply
            (replaceStr (str "{keyword}") kw (str "Thanks! I\x27ll reply to {keyword} now"))),
          saves := 1, exc := false }
      else
        { state := st1, reply := none, saves := 1, exc := true }

/-- `Keywords.keyword_delete`.  (The `keyword_delete_inexistant` reply text
contains a tab: the source writes `'This keyword doesn\t exist'` in a
single-quoted Python string, so `\t` is a TAB escape.) -/
def keyword_delete (ev : Event) (st : KwState) (saveOk : Bool) : HandlerOut :=
  let toks := splitSp ev.text
  if toks.length < 3 then
    { state := st, reply := some (regularReply didntUnderstandText),
      saves := 0, exc := false }
  else
    let kw := lowerStr (toks.getD 2 [])
    if alistHasKey kw st.keywords then
      let st1 := { st with keywords := alistErase kw st.keywords }
      if saveOk then
        { state := st1,
          reply := some (regularReply
            (replaceStr (str "{keyword}") kw
              (str "Thanks! I won\x27t reply to {keyword} anymore"))),
          saves := 1, exc := false }
      else
        { state := st1, reply := none, saves := 1, exc := true }
    else
      { state := st,
        reply := some (regularReply
          (replaceStr (str "{keyword}") kw (str "This keyword doesn\t exist"))),
        saves := 0, exc := false }

/-- `Keywords.keyword_template`.  Note: the new template is stored in
memory only — this handler never calls `save_config`. -/
def keyword_template (ev : Event) (st : KwState) : HandlerOut :=
  let toks := splitSp ev.text
  if toks.length < 3 then
    { state := st, reply := some (regularReply didntUnderstandText),
      saves := 0, exc := false }
  else
    let template := ev.text.drop (str "keyword template ").length
    if ¬ containsSub (str "{channels}") template then
      { state := st,
        reply := some (regularReply
          (str "I didn\x27t see the {channels} part in your template")),
        saves := 0, exc := false }
    else
      { state := { st with keyword_template_text := template },
        reply := some (regularReply (str "Thanks! I\x27ll use this new template now")),
        saves := 0, exc := false }

/-- The keys of `config_data`, in dict order, with their descriptions. -/
def configEntries (c : KwConfig) : List (Str × Str × Bool) :=
  [(str "reply_in_thread",
    (str "The bot will reply publicly inside a thread.", c.reply_in_thread)),
   (str "reply_in_ephemeral",
    (str "The bot will reply privately.", c.reply_in_ephemeral)),
   (str "reply_to_keywords_by_admins",
    (str "The bot will reply to admins if they say keywords.", c.reply_to_keywords_by_admins)),
   (str "reply_to_replies",
    (str "The bot will reply to replies in threads (False = replies only to top-level messages)", c.reply_to_replies))]

/-- Python `str(bool)`. -/
def pyBoolStr (b : Bool) : Str := if b then str "True" else str "False"

/-- `Keywords.keyword_config_list`: the configuration "homepage".  All four
config values are booleans, so the `str`-typed and other-typed comprehension
blocks contribute empty strings. -/
def keyword_config_list (st : KwState) : HandlerOut :=
  let lines := (configEntries st.config_data).map (fun e =>
    str "*" ++ e.1 ++ str "* : " ++ e.2.1 ++ str " "
      ++ str "Expected value: True or False."
      ++ str " - Current value:" ++ str " " ++ pyBoolStr e.2.2 ++ str " ")
  let body := str "Hello!\nWelcome to the configuration page to change my behavior\n\nType *keyword config* _key_ _value_ to change a value\n\nList of configuration keys:\n{config_keys}\n\n_Note:_ Enabling both _reply_in_thread_ and _reply_in_ephemeral_ mean users will receive 2 messages\n\n*Attention!* Actions are performed without confirmation"
  { state := st,
    reply := some (regularReply
      (replaceStr (str "{config_keys}") (joinSep (str "\n") lines) body)),
    saves := 0, exc := false }

/-- Write one boolean config key. -/
def setConfigKey (key : Str) (b : Bool) (c : KwConfig) : KwConfig :=
  if key = str "reply_in_thread" then { c with reply_in_thread := b }
  else if key = str "reply_in_ephemeral" then { c with reply_in_ephemeral := b }
  else if key = str "reply_to_keywords_by_admins" then { c with reply_to_keywords_by_admins := b }
  else if key = str "reply_to_replies" then { c with reply_to_replies := b }
  else c

/-- `key in self.config_data`. -/
def configHasKey (key : Str) : Bool :=
  key = str "reply_in_thread" ∨ key = str "reply_in_ephemeral"
    ∨ key = str "reply_to_keywords_by_admins" ∨ key = str "reply_to_replies"

/-- `Keywords.keyword_config`.  All stored values are booleans, so only the
boolean branch of the isinstance dispatch is reachable; the update is in
memory only — `save_config` is never called. -/
def keyword_config (ev : Event) (st : KwState) : HandlerOut :=
  let toks := splitSp ev.text
  if toks.length < 4 then keyword_config_list st
  else
    let key := sanitizeOnlyFormatting (toks.getD 2 [])
    let value := joinSep (str " ") (toks.drop 3)
    let valueS := sanitizeOnlyFormatting value
    if configHasKey key then
      if valueS = str "true" ∨ valueS = str "false" ∨ valueS = str "0" ∨ valueS = str "1" then
        let b := ¬ (valueS = str "false" ∨ valueS = str "0")
        { state := { st with config_data := setConfigKey key b st.config_data },
          reply := some (regularReply (str "Thanks! Configuration modified.")),
          saves := 0, exc := false }
      else
        { state := st,
          reply := some (regularReply
            (str "This settings can\x27t be modified in this way. Sorry!")),
          saves := 0, exc := false }
    else
      { state := st,
        reply := some (regularReply (str "I don\x27t know that parameter...")),
        saves := 0, exc := false }

/-- `Keywords.switch_to_im`: open a direct conversation via the
`conversations_open` collaborator (`imOpen`, `none` modelling a
`SlackApiError`) and on success return the privacy notice addressed to the
opened channel; on failure return `False`. -/
def switch_to_im (imOpen : Option Str) (st : KwState) : HandlerOut :=
  match imOpen with
  | none => { state := st, reply := none, saves := 0, exc := false }
  | some ch =>
    { state := st,
      reply := some { rtype := some [str "regular"], channel := some ch,
                      text := configInPublicText },
      saves := 0, exc := false }

/-- `Keywords.keyword_search_reply`: keep the keywords that occur as exact
tokens of the space-split sanitized text, in table order; no match returns
`False`; otherwise the first match's reply is rendered (plain text
verbatim, a channel list through the `{channels}` template). -/
def keyword_search_reply (st : KwState) (sanitized : Str) : Option ReplyData :=
  let toks := splitSp sanitized
  match st.keywords.filter (fun kv => toks.contains kv.1) with
  | [] => none
  | (_, rep) :: _ =>
    match rep with
    | .text s => some { rtype := none, channel := none, text := s }
    | .channels l =>
      let chans := (l.filter (fun c => ¬ containsSub (str "#") c)).map
                     (fun c => str "#" ++ c)
                   ++ l.filter (fun c => containsSub (str "#") c)
      some { rtype := none, channel := none,
             text := replaceStr (str "{channels}") (joinSep (str " ") chans)
                       st.keyword_template_text }

/-- The `reply_message` dict at `_send_reply_message` time. -/
structure OutMessage where
  channel : Str
  user : Str
  rtype : List Str
  thread_ts : Str
  text : Str
deriving DecidableEq

/-- `Keywords._send_reply_message`: one regular send when `type` holds
`regular`; one ephemeral send when it holds `ephemeral` AND
`reply_in_ephemeral` is set; one threaded send when it holds `thread` AND
`reply_in_thread` is set — in that source order. -/
def sendReplyMessage (cfg : KwConfig) (m : OutMessage) : List Delivery :=
  (if m.rtype.contains (str "regular") then
     [Delivery.postMessage m.channel (some m.user) none m.text]
   else [])
  ++ (if m.rtype.contains (str "ephemeral") ∧ cfg.reply_in_ephemeral then
        [Delivery.postEphemeral m.channel m.user m.text]
      else [])
  ++ (if m.rtype.contains (str "thread") ∧ cfg.reply_in_thread then
        [Delivery.postMessage m.channel none (some m.thread_ts) m.text]
      else [])

/-- The configuration-command phase of `Keywords.on_message` (lines
227-251): `none` when the control token is absent or the sender is neither
admin nor owner (`reply_data` stays `False`); otherwise the outcome of the
public-channel redirect or of the dispatched subcommand.  The final `else`
calls `self.keyword(event)`, a method the class does not define, so it
raises `AttributeError`. -/
def kwConfigPhase (users : Str → Option UserInfo) (imOpen : Option Str)
    (saveOk : Bool) (st : KwState) (ev : Event) : Option HandlerOut :=
  let sanitized := sanitizeText ev.text
  if (splitSp sanitized).contains (str "keyword") then
    if userIsAdmin users ev.user || userIsOwner users ev.user then
      some (
        if ev.channel_type = str "channel" then switch_to_im imOpen st
        else if (str "keyword list").isPrefixOf sanitized ∨ sanitized = str "keyword" then
          keyword_list st
        else if (str "keyword add").isPrefixOf sanitized then keyword_add ev st saveOk
        else if (str "keyword delete").isPrefixOf sanitized then keyword_delete ev st saveOk
        else if (str "keyword quickadd").isPrefixOf sanitized then keyword_quickadd ev st saveOk
        else if (str "keyword template").isPrefixOf sanitized then keyword_template ev st
        else if (str "keyword config").isPrefixOf sanitized then keyword_config ev st
        else { state := st, reply := none, saves := 0, exc := true })
    else none
  else none

/-- Outcome of one `Keywords.on_message` call: final state, the outbound
calls made, the `save_config` attempts, and the returned boolean (`none`
when an exception escaped the handler). -/
structure KwOutcome where
  state : KwState
  deliveries : List Delivery
  saves : Nat
  result : Option Bool
deriving DecidableEq

/-- The keyword-search fall-through of `Keywords.on_message` (lines
256-283), reached when no configuration reply was produced: suppress for
admins when `reply_to_keywords_by_admins` is off, suppress thread children
when `reply_to_replies` is off, then search; a match is sent with the
original message type `['thread', 'ephemeral']`. -/
def kwFallThrough (users : Str → Option UserInfo) (ev : Event)
    (st : KwState) (sv : Nat) : KwOutcome :=
  let isChildReply : Bool :=
    match ev.thread_ts with
    | some t => decide (t ≠ ev.ts)
    | none => false
  if (userIsAdmin users ev.user || userIsOwner users ev.user)
      ∧ st.config_data.reply_to_keywords_by_admins = false then
    { state := st, deliveries := [], saves := sv, result := some false }
  else if isChildReply ∧ st.config_data.reply_to_replies = false then
    { state := st, deliveries := [], saves := sv, result := some false }
  else
    match keyword_search_reply st (sanitizeText ev.text) with
    | some rd =>
      { state := st,
        deliveries := sendReplyMessage st.config_data
          { channel := ev.channel, user := ev.user,
            rtype := [str "thread", str "ephemeral"],
            thread_ts := (match ev.thread_ts with | some t => t | none => ev.ts),
            text := rd.text },
        saves := sv, result := some true }
    | none => { state := st, deliveries := [], saves := sv, result := some false }

/-- `Keywords.on_message`, assembled from the two phases.  A configuration
reply is merged over the base `reply_message` (overriding `type`, `text`
and, for `switch_to_im`, `channel`) and sent; otherwise control falls
through to keyword search. -/
def keywords_on_message (users : Str → Option UserInfo) (imOpen : Option Str)
    (saveOk : Bool) (st : KwState) (ev : Event) : KwOutcome :=
  match kwConfigPhase users imOpen saveOk st ev with
  | some ho =>
    if ho.exc then
      { state := ho.state, deliveries := [], saves := ho.saves, result := none }
    else
      match ho.reply with
      | some rd =>
        { state := ho.state,
          deliveries := sendReplyMessage ho.state.config_data
            { channel := (match rd.channel with | some c => c | none => ev.channel),
              user := ev.user,
              rtype := (match rd.rtype with
                        | some t => t
                        | none => [str "thread", str "ephemeral"]),
              thread_ts := (match ev.thread_ts with | some t => t | none => ev.ts),
              text := rd.text },
          saves := ho.saves, result := some true }
      | none => kwFallThrough users ev ho.state ho.saves
  | none => kwFallThrough users ev st 0

/-! ## The extension manager (`ExtensionManager` in `modbot_extension.py`) -/

/-- A channel record as resolved by `ModbotExtension.get_channel_info`
(whose cache/re-list mechanics live behind the `channelInfo` collaborator;
`none` models its `False` return). -/
structure ChanRec where
  id : Str
  name : Str
deriving DecidableEq

/-- A manager handler's `reply_data`: all manager handlers set
`type: 'regular'`, an optional channel override, and a text. -/
structure MgrReply where
  channel : Option Str
  text : Str
deriving DecidableEq

/-- `replies['extension_help']` of the manager. -/
def extensionHelpText : Str :=
  str "Hello!\nType *help* for help.\nType *help* _extension_ for help on a specific extension.\n\nFor the extension manager (admins only!):\n- Type *extension list* for the list of extensions\n- Type *extension load* _extension_ to load an extension\n- Type *extension enable* _extension_ to enable an extension\n- Type *extension disable* _extension_ to enable an extension\nList of extensions: {extensions}"

/-- `ExtensionManager.switch_to_im` reply (`False` on a failed
`conversations_open`). -/
def mgr_switch_to_im (imOpen : Option Str) : Option MgrReply :=
  match imOpen with
  | none => none
  | some ch => some { channel := some ch, text := configInPublicText }

/-- Is the sender admin or owner? -/
def isAuthorized (users : Str → Option UserInfo) (u : Str) : Bool :=
  userIsAdmin users u || userIsOwner users u

/-- `ExtensionManager.help`. -/
def mgr_help (store : ExtStore) (imOpen : Option Str) (ev : Event) :
    Option MgrReply :=
  if ev.channel_type = str "channel" then mgr_switch_to_im imOpen
  else
    some { channel := none,
           text := replaceStr (str "{extensions}")
             (joinSep (str ", ") (store.map (fun kv => kv.1))) extensionHelpText }

/-- `ExtensionManager.help_other_extension`: looks the RAW second token up
among the store keys and calls the instance's `help`; `helpOf` is that
dynamic call (per extension name), `none` modelling an extension whose
`help` returns `None` (then `reply_data.update` raises `AttributeError`);
an extension that was registered but never loaded has no `instance` key,
so the subscription raises `KeyError`. -/
def mgr_help_other (helpOf : Str → Event → Option MgrReply) (store : ExtStore)
    (imOpen : Option Str) (ev : Event) : Except PyErr (Option MgrReply) :=
  if ev.channel_type = str "channel" then .ok (mgr_switch_to_im imOpen)
  else
    let ext := (splitSp ev.text).getD 1 []
    match alistLookup ext store with
    | some r =>
      if r.loaded then
        match helpOf ext ev with
        | some rep => .ok (some rep)
        | none => .error .attributeError
      else .error .keyError
    | none =>
      .ok (some { channel := none,
                  text := str "There is no extension with that name. Try *help* for the list" })

/-- One line of the `extension list` reply for one store key. -/
def extListLine (store : ExtStore) (n : Str) : Except PyErr Str := do
  if is_enabled store n then
    let imFlag ← is_enabled_in_im store n
    let chans ← list_enabled_for store n
    let base := str "*" ++ n ++ str "* : " ++ str "Enabled globally"
    let base := if imFlag then base ++ str ", " ++ str "enabled in direct messages"
                else base
    match chans with
    | some (c :: cs) =>
      return base ++ str ", " ++ str "enabled on channels"
        ++ str " <#" ++ joinSep (str "> <#") (c :: cs) ++ str ">"
    | _ => return base
  else
    return str "*" ++ n ++ str "* : " ++ str "Disabled globally"

/-- All lines of the `extension list` reply, in store order. -/
def extListLines (store : ExtStore) : List (Str × ExtRecord) →
    Except PyErr (List Str)
  | [] => .ok []
  | (n, _) :: rest => do
    let line ← extListLine store n
    let more ← extListLines store rest
    return line :: more

/-- `ExtensionManager.extension_list`. -/
def mgr_extension_list (users : Str → Option UserInfo) (store : ExtStore)
    (imOpen : Option Str) (ev : Event) : Except PyErr (Option MgrReply) := do
  if ¬ isAuthorized users ev.user then return none
  else if ev.channel_type = str "channel" then return mgr_switch_to_im imOpen
  else
    let lines ← extListLines store store
    return some { channel := none,
                  text := replaceStr (str "{extensions}")
                    (joinSep (str "\n") lines)
                    (str "Hello!\nHere are all identified extensions:\n{extensions}") }

/-- `ExtensionManager.extension_load`.  The manager instance is loaded by
`modbot.py` with empty settings, so `settingsExts` (the value of
`self.settings['extensions']`, when that key exists at all) is `none` in
the deployed configuration and the subscription raises `KeyError`; even
with the key present, the inner lookup uses the LOWER-cased extension name
against the settings keys. -/
def mgr_extension_load (users : Str → Option UserInfo) (store : ExtStore)
    (settingsExts : Option (List (Str × Unit))) (imOpen : Option Str)
    (ev : Event) : Except PyErr (Option MgrReply × ExtStore) := do
  if ¬ isAuthorized users ev.user then return (none, store)
  else if ev.channel_type = str "channel" then
    return (mgr_switch_to_im imOpen, store)
  else if (splitSp ev.text).length < 3 then
    return (some { channel := none, text := didntUnderstandText }, store)
  else
    let extName := lowerStr ((splitSp ev.text).getD 2 [])
    match settingsExts with
    | none => .error .keyError
    | some m =>
      match alistLookup extName m with
      | none => .error .keyError
      | some _ =>
        let r := load_extension store extName
        if r.1 then
          return (some { channel := none,
                         text := replaceStr (str "{extension}") extName
                           (str "Success: Extension {extension} loaded successfully") },
                  r.2)
        else
          return (some { channel := none,
                         text := replaceStr (str "{extension}") extName
                           (str "Fail: Extension {extension} could not be loaded") },
                  r.2)

/-- `ExtensionManager.extension_enable`. -/
def mgr_extension_enable (users : Str → Option UserInfo) (store : ExtStore)
    (imOpen : Option Str) (ev : Event) : Option MgrReply × ExtStore :=
  if ¬ isAuthorized users ev.user then (none, store)
  else if ev.channel_type = str "channel" then (mgr_switch_to_im imOpen, store)
  else if (splitSp ev.text).length < 3 then
    (some { channel := none, text := didntUnderstandText }, store)
  else
    let extName := lowerStr ((splitSp ev.text).getD 2 [])
    let r := enable_extension store extName
    if r.1 then
      (some { channel := none,
              text := replaceStr (str "{extension}") extName
                (str "Success: Extension {extension} enabled successfully") }, r.2)
    else
      (some { channel := none,
              text := replaceStr (str "{extension}") extName
                (str "Fail: Extension {extension} could not be enabled") }, r.2)

/-- `ExtensionManager.extension_enable_for`: a failed channel resolution
returns `False`, whose `['id']` subscription raises `TypeError`. -/
def mgr_extension_enable_for (users : Str → Option UserInfo) (store : ExtStore)
    (imOpen : Option Str) (channelInfo : Str → Option ChanRec) (ev : Event) :
    Except PyErr (Option MgrReply × ExtStore) := do
  if ¬ isAuthorized users ev.user then return (none, store)
  else if ev.channel_type = str "channel" then
    return (mgr_switch_to_im imOpen, store)
  else if (splitSp ev.text).length < 4 then
    return (some { channel := none, text := didntUnderstandText }, store)
  else
    let extName := lowerStr ((splitSp ev.text).getD 2 [])
    match channelInfo ((splitSp ev.text).getD 3 []) with
    | none => .error .typeError
    | some ch =>
      let r := enable_extension_for store extName ch.id
      if r.1 then
        return (some { channel := none,
                       text := replaceStr (str "{channel}") (str "<#" ++ ch.id ++ str ">")
                         (replaceStr (str "{extension}") extName
                           (str "Success: Extension {extension} enabled successfully on channel {channel}")) },
                r.2)
      else
        return (some { channel := none,
                       text := replaceStr (str "{extension}") extName
                         (str "Fail: Extension {extension} could not be enabled") },
                r.2)

/-- `ExtensionManager.extension_enable_for_im`. -/
def mgr_extension_enable_for_im (users : Str → Option UserInfo)
    (store : ExtStore) (imOpen : Option Str) (ev : Event) :
    Option MgrReply × ExtStore :=
  if ¬ isAuthorized users ev.user then (none, store)
  else if ev.channel_type = str "channel" then (mgr_switch_to_im imOpen, store)
  else if (splitSp ev.text).length < 3 then
    (some { channel := none, text := didntUnderstandText }, store)
  else
    let extName := lowerStr ((splitSp ev.text).getD 2 [])
    let r := enable_extension_for_im store extName
    if r.1 then
      (some { channel := none,
              text := replaceStr (str "{extension}") extName
                (str "Success: Extension {extension} enabled successfully for IMs") }, r.2)
    else
      (some { channel := none,
              text := replaceStr (str "{extension}") extName
                (str "Fail: Extension {extension} could not be enabled") }, r.2)

/-- `ExtensionManager.extension_disable`. -/
def mgr_extension_disable (users : Str → Option UserInfo) (store : ExtStore)
    (imOpen : Option Str) (ev : Event) : Option MgrReply × ExtStore :=
  if ¬ isAuthorized users ev.user then (none, store)
  else if ev.channel_type = str "channel" then (mgr_switch_to_im imOpen, store)
  else if (splitSp ev.text).length < 3 then
    (some { channel := none, text := didntUnderstandText }, store)
  else
    let extName := lowerStr ((splitSp ev.text).getD 2 [])
    let r := disable_extension store extName
    if r.1 then
      (some { channel := none,
              text := replaceStr (str "{extension}") extName
                (str "Success: Extension {extension} disabled successfully") }, r.2)
    else
      (some { channel := none,
              text := replaceStr (str "{extension}") extName
                (str "Fail: Extension {extension} could not be disabled") }, r.2)

/-- `ExtensionManager.extension_disable_for`. -/
def mgr_extension_disable_for (users : Str → Option UserInfo)
    (store : ExtStore) (imOpen : Option Str)
    (channelInfo : Str → Option ChanRec) (ev : Event) :
    Except PyErr (Option MgrReply × ExtStore) := do
  if ¬ isAuthorized users ev.user then return (none, store)
  else if ev.channel_type = str "channel" then
    return (mgr_switch_to_im imOpen, store)
  else if (splitSp ev.text).length < 4 then
    return (some { channel := none, text := didntUnderstandText }, store)
  else
    let extName := lowerStr ((splitSp ev.text).getD 2 [])
    match channelInfo ((splitSp ev.text).getD 3 []) with
    | none => .error .typeError
    | some ch =>
      let r ← disable_extension_for store extName ch.id
      if r.1 then
        return (some { channel := none,
                       text := replaceStr (str "{channel}") (str "<#" ++ ch.id ++ str ">")
                         (replaceStr (str "{extension}") extName
                           (str "Success: Extension {extension} disabled successfully on channel {channel}")) },
                r.2)
      else
        return (some { channel := none,
                       text := replaceStr (str "{extension}") extName
                         (str "Fail: Extension {extension} could not be disabled") },
                r.2)

/-- `ExtensionManager.extension_disable_for_im`. -/
def mgr_extension_disable_for_im (users : Str → Option UserInfo)
    (store : ExtStore) (imOpen : Option Str) (ev : Event) :
    Option MgrReply × ExtStore :=
  if ¬ isAuthorized users ev.user then (none, store)
  else if ev.channel_type = str "channel" then (mgr_switch_to_im imOpen, store)
  else if (splitSp ev.text).length < 3 then
    (some { channel := none, text := didntUnderstandText }, store)
  else
    let extName := lowerStr ((splitSp ev.text).getD 2 [])
    let r := disable_extension_for_im store extName
    if r.1 then
      (some { channel := none,
              text := replaceStr (str "{extension}") extName
                (str "Success: Extension {extension} disabled successfully for IMs") }, r.2)
    else
      (some { channel := none,
              text := replaceStr (str "{extension}") extName
                (str "Fail: Extension {extension} could not be disabled") }, r.2)

/-- Outcome of one `ExtensionManager.on_message` call. -/
structure MgrOutcome where
  store : ExtStore
  deliveries : List Delivery
  result : Bool
deriving DecidableEq

/-- `ExtensionManager.on_message`.  The branch for `'extension load '`
reads `reply_data = self.extension_add(event)` in the source; the class
defines no method `extension_add` (the handler is named `extension_load`),
so that branch raises `AttributeError` unconditionally.  All manager
replies are of type `regular`, sent through `chat_postMessage` with the
`user` field still present. -/
def manager_on_message (users : Str → Option UserInfo) (store : ExtStore)
    (settingsExts : Option (List (Str × Unit))) (imOpen : Option Str)
    (channelInfo : Str → Option ChanRec)
    (helpOf : Str → Event → Option MgrReply) (ev : Event) :
    Except PyErr MgrOutcome := do
  let branch : Except PyErr (Option MgrReply × ExtStore) :=
    if ev.text = str "help" ∨ ev.text = str "extension help"
        ∨ ev.text = str "help extension" then
      .ok (mgr_help store imOpen ev, store)
    else if (str "help ").isPrefixOf ev.text then
      (mgr_help_other helpOf store imOpen ev).map (fun r => (r, store))
    else if (str "extension").isPrefixOf ev.text then
      if (str "extension list").isPrefixOf ev.text then
        (mgr_extension_list users store imOpen ev).map (fun r => (r, store))
      else if (str "extension load ").isPrefixOf ev.text then
        .error .attributeError
      else if (str "extension enable ").isPrefixOf ev.text then
        .ok (mgr_extension_enable users store imOpen ev)
      else if (str "extension enable_for ").isPrefixOf ev.text then
        mgr_extension_enable_for users store imOpen channelInfo ev
      else if (str "extension enable_for_im ").isPrefixOf ev.text then
        .ok (mgr_extension_enable_for_im users store imOpen ev)
      else if (str "extension disable ").isPrefixOf ev.text then
        .ok (mgr_extension_disable users store imOpen ev)
      else if (str "extension disable_for ").isPrefixOf ev.text then
        mgr_extension_disable_for users store imOpen channelInfo ev
      else if (str "extension disable_for_im ").isPrefixOf ev.text then
        .ok (mgr_extension_disable_for_im users store imOpen ev)
      else .ok (none, store)
    else .ok (none, store)
  match branch with
  | .error e => .error e
  | .ok (some rep, store1) =>
    .ok { store := store1,
          deliveries := [Delivery.postMessage
            (match rep.channel with | some c => c | none => ev.channel)
            (some ev.user) none rep.text],
          result := true }
  | .ok (none, store1) =>
    .ok { store := store1, deliveries := [], result := false }

/-! ## Concrete data for the claim theorems -/

/-- A directory with one non-admin, non-owner user `U1`. -/
def exUsersNonAdmin : Str → Option UserInfo := fun u =>
  if u = str "U1" then some { is_admin := false, is_owner := false } else none

/-- A directory with one admin user `A1`. -/
def exUsersAdmin : Str → Option UserInfo := fun u =>
  if u = str "A1" then some { is_admin := true, is_owner := false } else none

/-- A keyword state with the table `{ping: "pong"}` and the source-default
config toggles. -/
def exPingState : KwState :=
  { keywords := [(str "ping", KwReply.text (str "pong"))],
    config_data := sourceDefaultConfig,
    keyword_template_text := str "Join {channels} please" }

/-- A keyword state with an empty table. -/
def exEmptyState : KwState :=
  { keywords := [], config_data := sourceDefaultConfig,
    keyword_template_text := str "Join {channels} please" }

/-- A keyword state whose table holds only `pineapple`. -/
def exPineappleState : KwState :=
  { keywords := [(str "pineapple", KwReply.text (str "ananas"))],
    config_data := sourceDefaultConfig,
    keyword_template_text := str "Join {channels} please" }

/-- Non-admin `U1` DMs the bot `keyword add ping pong`. -/
def exEvNonAdminAdd : Event :=
  { channel := str "C", channel_type := str "im", user := str "U1",
    text := str "keyword add ping pong", ts := str "1",
    thread_ts := none, subtype := none }

/-- Admin `A1` sends `keyword add ping pong` on a public channel. -/
def exEvAdminPublic : Event :=
  { channel := str "CH", channel_type := str "channel", user := str "A1",
    text := str "keyword add ping pong", ts := str "2",
    thread_ts := none, subtype := none }

/-- Non-admin `U1` sends `keyword add ping pong` on a public channel. -/
def exEvNonAdminPublic : Event :=
  { channel := str "CH", channel_type := str "channel", user := str "U1",
    text := str "keyword add ping pong", ts := str "2",
    thread_ts := none, subtype := none }

/-- Admin `A1` DMs a valid `keyword template` command. -/
def exEvTemplate : Event :=
  { channel := str "D", channel_type := str "im", user := str "A1",
    text := str "keyword template Bonjour {channels} bienvenue",
    ts := str "3", thread_ts := none, subtype := none }

/-- Admin `A1` DMs `keyword add ping pong`. -/
def exEvAdminAdd : Event :=
  { channel := str "D", channel_type := str "im", user := str "A1",
    text := str "keyword add ping pong", ts := str "4",
    thread_ts := none, subtype := none }

/-- Any user says `say ping please` on a channel, top-level. -/
def exEvSayPing : Event :=
  { channel := str "C7", channel_type := str "channel", user := str "U1",
    text := str "say ping please", ts := str "42",
    thread_ts := none, subtype := none }

/-- A plain IM event (used where only routing matters). -/
def exEvIm : Event :=
  { channel := str "D", channel_type := str "im", user := str "U1",
    text := str "hi", ts := str "9", thread_ts := none, subtype := none }

/-- A channel event on channel `c1`. -/
def exEvChan (c : Str) : Event :=
  { channel := c, channel_type := str "channel", user := str "U1",
    text := str "hi", ts := str "9", thread_ts := none, subtype := none }

/-- An upstream directory resolving exactly the user `U`. -/
def exUpstream : Str → Option UserInfo := fun u =>
  if u = str "U" then some { is_admin := false, is_owner := false } else none

/-- The identity cache right after `__init__` at time 0. -/
def exCacheInit : CacheState := { users := [], last_refresh := 0 }

/-- A store where `Keywords` was registered, loaded and enabled. -/
def exStoreEnabled : ExtStore :=
  (enable_extension
    (load_extension (register_extension [] (str "Keywords")) (str "keywords")).2
    (str "keywords")).2

/-- A store with an enabled extension and a disabled one carrying scoped
enablement state. -/
def exStoreTwo : ExtStore :=
  [(str "extensionmanager",
    { loaded := true, enabled := true, enabled_for_im := true,
      enabled_for_channels := [] }),
   (str "keywords",
    { loaded := true, enabled := false, enabled_for_im := true,
      enabled_for_channels := [str "c1"] })]

/-- Admin `A1` DMs `extension load keywords`. -/
def exEvLoad : Event :=
  { channel := str "D1", channel_type := str "im", user := str "A1",
    text := str "extension load keywords", ts := str "5",
    thread_ts := none, subtype := none }

/-! ## Helper lemmas -/

/-- The fall-through phase mutates nothing, attempts no save, returns a
boolean, and stays silent whenever keyword search finds nothing. -/
theorem kwFallThrough_spec (users : Str → Option UserInfo) (ev : Event)
    (st : KwState) (sv : Nat) :
    (kwFallThrough users ev st sv).state = st
      ∧ (kwFallThrough users ev st sv).saves = sv
      ∧ (kwFallThrough users ev st sv).result.isSome = true
      ∧ (keyword_search_reply st (sanitizeText ev.text) = none →
          (kwFallThrough users ev st sv).deliveries = []) := by
  unfold kwFallThrough
  cases ev.thread_ts <;>
  · dsimp only
    split
    · exact ⟨rfl, rfl, rfl, fun _ => rfl⟩
    · split
      · exact ⟨rfl, rfl, rfl, fun _ => rfl⟩
      · split
        · rename_i rd hrd
          refine ⟨rfl, rfl, rfl, fun hn => ?_⟩
          rw [hn] at hrd
          cases hrd
        · exact ⟨rfl, rfl, rfl, fun _ => rfl⟩

/-- Keyword search comes back empty exactly when no table keyword survives
the token filter. -/
theorem keyword_search_none_iff (st : KwState) (s : Str) :
    keyword_search_reply st s = none
      ↔ st.keywords.filter (fun kv => (splitSp s).contains kv.1) = [] := by
  unfold keyword_search_reply
  dsimp only
  cases hf : st.keywords.filter (fun kv => (splitSp s).contains kv.1) with
  | nil => simp
  | cons hd tl =>
    obtain ⟨kw, rep⟩ := hd
    cases rep <;> simp

/-- Keyword search succeeds exactly when some table keyword occurs as a
whole token of the space-split text. -/
theorem keyword_search_matches (st : KwState) (s : Str) :
    (keyword_search_reply st s).isSome = true
      ↔ ∃ kw rep, (kw, rep) ∈ st.keywords ∧ kw ∈ splitSp s := by
  constructor
  · intro hs
    have hne : st.keywords.filter (fun kv => (splitSp s).contains kv.1) ≠ [] := by
      intro hnil
      rw [(keyword_search_none_iff st s).mpr hnil] at hs
      cases hs
    obtain ⟨hd, tl, hcons⟩ := List.exists_cons_of_ne_nil hne
    have hmem := List.mem_filter.mp (hcons ▸ List.mem_cons_self hd tl)
    exact ⟨hd.1, hd.2, hmem.1, List.elem_iff.mp hmem.2⟩
  · rintro ⟨kw, rep, hmem, htok⟩
    cases hs : keyword_search_reply st s with
    | some _ => rfl
    | none =>
      have hnil := (keyword_search_none_iff st s).mp hs
      have := List.filter_eq_nil_iff.mp hnil (kw, rep) hmem
      exact absurd (List.elem_iff.mpr htok) this

/-- `alistLookup` commutes with a value-only map of the store. -/
theorem alistLookup_map_value (g : ExtRecord → ExtRecord) (k : Str) :
    ∀ l : ExtStore,
      alistLookup k (l.map (fun kv => (kv.1, g kv.2)))
        = (alistLookup k l).map g
  | [] => rfl
  | (k1, v1) :: rest => by
    simp only [List.map_cons, alistLookup]
    split <;> simp [alistLookup_map_value g k rest]

/-- `is_enabled` sees through any modification that keeps `enabled`. -/
theorem is_enabled_map_value (g : ExtRecord → ExtRecord)
    (hg : ∀ r, (g r).enabled = r.enabled) (store : ExtStore) (n : Str) :
    is_enabled (store.map (fun kv => (kv.1, g kv.2))) n
      = is_enabled store n := by
  unfold is_enabled
  rw [alistLookup_map_value]
  cases alistLookup (lowerStr n) store <;> simp [hg]

/-- The dispatch loop's receiver list ignores every record field except
`enabled`. -/
theorem enabled_receivers_map_value (g : ExtRecord → ExtRecord)
    (hg : ∀ r, (g r).enabled = r.enabled) (store : ExtStore) :
    enabled_receivers (store.map (fun kv => (kv.1, g kv.2)))
      = enabled_receivers store := by
  unfold enabled_receivers
  have aux : ∀ l : ExtStore,
      ((l.map (fun kv => (kv.1, g kv.2))).filter
          (fun kv => is_enabled (store.map (fun kv => (kv.1, g kv.2))) kv.1)).map
        (fun kv => kv.1)
        = (l.filter (fun kv => is_enabled store kv.1)).map (fun kv => kv.1) := by
    intro l
    induction l with
    | nil => rfl
    | cons hd tl ih =>
      simp only [List.map_cons, List.filter_cons,
        is_enabled_map_value g hg store] at ih ⊢
      cases h : is_enabled store hd.1 <;> simp [h, ih]
  exact aux store

/-! ## Claim theorems -/

/-- C1, counterexample.  The claim says a non-admin message carrying the
control token gets "no reply of any kind".  On the code, such a message
falls through to keyword search: with the table `{ping: "pong"}` and the
default toggles, the non-admin `U1` sending `keyword add ping pong` in an
IM receives the threaded keyword reply `pong` — while the table indeed
stays unchanged and nothing is persisted. -/
theorem keywords_nonadmin_counterexample :
    (splitSp (sanitizeText exEvNonAdminAdd.text)).contains (str "keyword") = true
      ∧ userIsAdmin exUsersNonAdmin exEvNonAdminAdd.user = false
      ∧ userIsOwner exUsersNonAdmin exEvNonAdminAdd.user = false
      ∧ (keywords_on_message exUsersNonAdmin none true exPingState
          exEvNonAdminAdd).deliveries
          = [Delivery.postMessage (str "C") none (some (str "1")) (str "pong")]
      ∧ (keywords_on_message exUsersNonAdmin none true exPingState
          exEvNonAdminAdd).deliveries ≠ []
      ∧ (keywords_on_message exUsersNonAdmin none true exPingState
          exEvNonAdminAdd).state = exPingState := by
  refine ⟨by decide, by decide, by decide, by decide, by decide, by decide⟩

/-- C1, amended: for every message whose sender is neither admin nor owner
(control token or not), `Keywords.on_message` invokes no mutation handler —
the state is unchanged and nothing is persisted — produces no configuration
reply and raises no error; the message is handled by ordinary keyword
search alone, so when the search finds no whole-word match, no reply of any
kind is sent. -/
theorem keywords_nonadmin_no_mutation (users : Str → Option UserInfo)
    (imOpen : Option Str) (saveOk : Bool) (st : KwState) (ev : Event)
    (hA : userIsAdmin users ev.user = false)
    (hO : userIsOwner users ev.user = false) :
    (keywords_on_message users imOpen saveOk st ev).state = st
      ∧ (keywords_on_message users imOpen saveOk st ev).saves = 0
      ∧ (keywords_on_message users imOpen saveOk st ev).result.isSome = true
      ∧ (keyword_search_reply st (sanitizeText ev.text) = none →
          (keywords_on_message users imOpen saveOk st ev).deliveries = []) := by
  have hphase : kwConfigPhase users imOpen saveOk st ev = none := by
    unfold kwConfigPhase
    simp [hA, hO]
  unfold keywords_on_message
  rw [hphase]
  exact kwFallThrough_spec users ev st 0

/-- C1, witness for the amended theorem: the non-admin `U1` sending
`keyword add ping pong` against an empty table leaves the state unchanged. -/
theorem keywords_nonadmin_no_mutation_witness :
    (keywords_on_message exUsersNonAdmin none true exEmptyState
      exEvNonAdminAdd).state = exEmptyState :=
  (keywords_nonadmin_no_mutation exUsersNonAdmin none true exEmptyState
    exEvNonAdminAdd (by decide) (by decide)).1

/-- C2, counterexample.  The claim says a control-token message on a public
channel is redirected "regardless of whether the sender is authorized".
On the code, the authorization check comes first: the non-admin `U1`
sending `keyword add ping pong` on a public channel triggers no
`conversations_open` and no privacy notice — nothing is delivered at all
(the empty table gives keyword search nothing to say). -/
theorem keywords_public_channel_counterexample :
    exEvNonAdminPublic.channel_type = str "channel"
      ∧ (splitSp (sanitizeText exEvNonAdminPublic.text)).contains (str "keyword") = true
      ∧ userIsAdmin exUsersNonAdmin exEvNonAdminPublic.user = false
      ∧ userIsOwner exUsersNonAdmin exEvNonAdminPublic.user = false
      ∧ (keywords_on_message exUsersNonAdmin (some (str "D9")) true
          exEmptyState exEvNonAdminPublic).deliveries = [] := by
  refine ⟨by decide, by decide, by decide, by decide, by decide⟩

/-- C2, amended: a control-token message on a public channel never mutates
the keyword state and never persists, whoever sent it; when the sender IS
admin or owner and the direct conversation opens, the handler redirects —
the only delivery is the privacy notice posted to the opened IM channel.
Unauthorized senders are not redirected (see the counterexample). -/
theorem keywords_public_channel_redirect (users : Str → Option UserInfo)
    (imOpen : Option Str) (saveOk : Bool) (st : KwState) (ev : Event)
    (hch : ev.channel_type = str "channel")
    (htok : (splitSp (sanitizeText ev.text)).contains (str "keyword") = true) :
    (keywords_on_message users imOpen saveOk st ev).state = st
      ∧ (keywords_on_message users imOpen saveOk st ev).saves = 0
      ∧ ((userIsAdmin users ev.user || userIsOwner users ev.user) = true →
          ∀ c, imOpen = some c →
            (keywords_on_message users imOpen saveOk st ev).deliveries
              = [Delivery.postMessage c (some ev.user) none configInPublicText]) := by
  cases hauth : userIsAdmin users ev.user || userIsOwner users ev.user with
  | false =>
    have hphase : kwConfigPhase users imOpen saveOk st ev = none := by
      unfold kwConfigPhase
      simp [hauth]
    unfold keywords_on_message
    rw [hphase]
    obtain ⟨h1, h2, _, _⟩ := kwFallThrough_spec users ev st 0
    exact ⟨h1, h2, fun hc => absurd hc (by simp [hauth])⟩
  | true =>
    have hphase : kwConfigPhase users imOpen saveOk st ev
        = some (switch_to_im imOpen st) := by
      unfold kwConfigPhase
      simp [hauth, htok, hch]
      exact List.elem_iff.mp htok
    unfold keywords_on_message
    rw [hphase]
    cases imOpen with
    | none =>
      obtain ⟨h1, h2, _, _⟩ := kwFallThrough_spec users ev st 0
      exact ⟨h1, h2, fun _ c hc => by cases hc⟩
    | some c0 =>
      refine ⟨rfl, rfl, fun _ c hc => ?_⟩
      cases hc
      cases ev.thread_ts <;> rfl

/-- C2, witness for the amended theorem: the admin `A1` sending the command
on a public channel gets exactly the privacy notice, in the direct channel
`D9` that was opened. -/
theorem keywords_public_channel_redirect_witness :
    (keywords_on_message exUsersAdmin (some (str "D9")) true exPingState
      exEvAdminPublic).deliveries
      = [Delivery.postMessage (str "D9") (some (str "A1")) none
          configInPublicText] :=
  (keywords_public_channel_redirect exUsersAdmin (some (str "D9")) true
    exPingState exEvAdminPublic (by decide) (by decide)).2.2 (by decide)
    (str "D9") rfl

/-- C3.  `is_enabled_for` subscripts `self.extensions[name.lower()]` before
its `is_registered` guard, so an unregistered name raises `KeyError`
instead of returning `False` as the claim states; for registered names the
two-tier truth table does hold, and global disablement overrides the
per-channel allow-list — all shown here on concrete stores. -/
theorem is_enabled_for_keyerror_bug :
    is_enabled_for [] (str "ghost") exEvIm = Except.error PyErr.keyError
      ∧ is_enabled_for exStoreTwo (str "keywords") (exEvChan (str "c1"))
          = Except.ok false
      ∧ is_enabled_for exStoreTwo (str "keywords") exEvIm = Except.ok false
      ∧ is_enabled_for exStoreTwo (str "extensionmanager") exEvIm
          = Except.ok true
      ∧ is_enabled_for exStoreTwo (str "extensionmanager") (exEvChan (str "c1"))
          = Except.ok false := by
  refine ⟨?_, ?_, ?_, ?_, ?_⟩ <;> rfl

/-- C4.  The expiry branch of `get_user_info` clears the cache but never
resets `state_last_refresh`, so once the TTL has elapsed EVERY access
clears the cache again and goes upstream: two lookups inside the first TTL
window cost one upstream call (the second is a cache hit), but after the
TTL both the lookup at t=601 and the one at t=602 go upstream, and the
watermark still reads 0 — where the claim promises the t=602 lookup is a
cache hit under a reset watermark. -/
theorem identity_cache_watermark_bug :
    (get_user_info exUpstream 100 exCacheInit (str "U")).upstreamCalls = 1
      ∧ (get_user_info exUpstream 200
          (get_user_info exUpstream 100 exCacheInit (str "U")).state
          (str "U")).upstreamCalls = 0
      ∧ (get_user_info exUpstream 601 exCacheInit (str "U")).upstreamCalls = 1
      ∧ (get_user_info exUpstream 602
          (get_user_info exUpstream 601 exCacheInit (str "U")).state
          (str "U")).upstreamCalls = 1
      ∧ (get_user_info exUpstream 602
          (get_user_info exUpstream 601 exCacheInit (str "U")).state
          (str "U")).state.last_refresh = 0 := by
  refine ⟨?_, ?_, ?_, ?_, ?_⟩ <;> rfl

/-- C5, counterexample.  `keyword_template` mutates the template and sends
its confirmation without a single `save_config` call; and a failed
`save_config` inside `keyword_add` withholds the confirmation but NOT the
in-memory mutation — the new keyword is still in the table afterwards. -/
theorem persistence_counterexample :
    (keyword_template exEvTemplate exPingState).saves = 0
      ∧ (keyword_template exEvTemplate exPingState).state.keyword_template_text
          = str "Bonjour {channels} bienvenue"
      ∧ exPingState.keyword_template_text ≠ str "Bonjour {channels} bienvenue"
      ∧ (keyword_template exEvTemplate exPingState).reply
          = some (regularReply (str "Thanks! I\x27ll use this new template now"))
      ∧ (keyword_add exEvAdminAdd exEmptyState false).reply = none
      ∧ alistLookup (str "ping")
          (keyword_add exEvAdminAdd exEmptyState false).state.keywords
          = some (KwReply.text (str "pong")) := by
  refine ⟨by decide, by decide, by decide, by decide, by decide, by decide⟩

/-- C5, amended: `add`, `quickadd` and `delete` persist before confirming —
whenever one of them mutated (left a different state), it attempted the
save, and a failed save withholds the confirmation (no reply) while the
in-memory mutation is exactly the one a successful save would have left;
`template` and `config` mutate in memory only, never calling `save_config`,
and none of the handlers lets an error escape when the write succeeds. -/
theorem persistence_amended (ev : Event) (st : KwState) :
    ((keyword_add ev st false).reply = none ∨ (keyword_add ev st false).saves = 0)
      ∧ ((keyword_quickadd ev st false).reply = none
          ∨ (keyword_quickadd ev st false).saves = 0)
      ∧ ((keyword_delete ev st false).reply = none
          ∨ (keyword_delete ev st false).saves = 0)
      ∧ (keyword_add ev st false).state = (keyword_add ev st true).state
      ∧ (keyword_quickadd ev st false).state = (keyword_quickadd ev st true).state
      ∧ (keyword_delete ev st false).state = (keyword_delete ev st true).state
      ∧ ((keyword_add ev st true).saves = 1 ∨ (keyword_add ev st true).state = st)
      ∧ ((keyword_quickadd ev st true).saves = 1
          ∨ (keyword_quickadd ev st true).state = st)
      ∧ ((keyword_delete ev st true).saves = 1
          ∨ (keyword_delete ev st true).state = st)
      ∧ (keyword_add ev st true).exc = false
      ∧ (keyword_quickadd ev st true).exc = false
      ∧ (keyword_delete ev st true).exc = false
      ∧ (keyword_template ev st).saves = 0
      ∧ (keyword_template ev st).exc = false
      ∧ (keyword_config ev st).saves = 0
      ∧ (keyword_config ev st).exc = false := by
  refine ⟨?_, ?_, ?_, ?_, ?_, ?_, ?_, ?_, ?_, ?_, ?_, ?_, ?_, ?_, ?_, ?_⟩ <;>
    · simp only [keyword_add, keyword_quickadd, keyword_delete,
        keyword_template, keyword_config, keyword_config_list]
      repeat' split
      all_goals simp_all

/-- C6.  Keyword search over the sanitized text replies exactly when some
configured keyword occurs as a whole space-separated token — substring
occurrences do not count — and at most one match is honored (the result is
a single optional reply).  Concretely, `pineapple` does not fire on
"pineapples are tasty" but does fire on "I love pineapple pie". -/
theorem keyword_whole_word_matching :
    (∀ (st : KwState) (t : Str),
        (keyword_search_reply st (sanitizeText t)).isSome = true
          ↔ ∃ kw rep, (kw, rep) ∈ st.keywords ∧ kw ∈ splitSp (sanitizeText t))
      ∧ keyword_search_reply exPineappleState
          (sanitizeText (str "pineapples are tasty")) = none
      ∧ (keyword_search_reply exPineappleState
          (sanitizeText (str "I love pineapple pie"))).isSome = true :=
  ⟨fun st t => keyword_search_matches st (sanitizeText t), by decide, by decide⟩

/-- C7.  For a keyword-match reply (delivery-mode set
`['thread', 'ephemeral']`), a threaded send happens iff `reply_in_thread`
and an ephemeral send iff `reply_in_ephemeral`, independently; both toggles
on yield two deliveries.  In the concrete scenario — table `{ping: "pong"}`,
`reply_in_thread=true`, `reply_in_ephemeral=false`, message
"say ping please" — the whole `on_message` pipeline produces exactly one
threaded reply "pong" and no ephemeral reply, leaving the state unchanged. -/
theorem reply_delivery_toggles :
    (∀ (cfg : KwConfig) (ch u tts txt : Str),
        (Delivery.postMessage ch none (some tts) txt
            ∈ sendReplyMessage cfg
                { channel := ch, user := u,
                  rtype := [str "thread", str "ephemeral"],
                  thread_ts := tts, text := txt }
          ↔ cfg.reply_in_thread = true)
        ∧ (Delivery.postEphemeral ch u txt
            ∈ sendReplyMessage cfg
                { channel := ch, user := u,
                  rtype := [str "thread", str "ephemeral"],
                  thread_ts := tts, text := txt }
          ↔ cfg.reply_in_ephemeral = true))
      ∧ (sendReplyMessage
          { reply_in_thread := true, reply_in_ephemeral := true,
            reply_to_keywords_by_admins := true, reply_to_replies := false }
          { channel := str "c", user := str "u",
            rtype := [str "thread", str "ephemeral"],
            thread_ts := str "t", text := str "x" }).length = 2
      ∧ (keywords_on_message exUsersNonAdmin none true exPingState
          exEvSayPing).deliveries
          = [Delivery.postMessage (str "C7") none (some (str "42")) (str "pong")]
      ∧ (keywords_on_message exUsersNonAdmin none true exPingState
          exEvSayPing).state = exPingState := by
  refine ⟨?_, by decide, by decide, by decide⟩
  intro cfg ch u tts txt
  have hr : ([str "thread", str "ephemeral"] : List Str).contains (str "regular")
      = false := by decide
  have he : ([str "thread", str "ephemeral"] : List Str).contains (str "ephemeral")
      = true := by decide
  have ht : ([str "thread", str "ephemeral"] : List Str).contains (str "thread")
      = true := by decide
  obtain ⟨t, e, a, r⟩ := cfg
  cases t <;> cases e <;>
    simp [sendReplyMessage, hr, he, ht, List.mem_append]

/-- C8.  The claim says re-registering an already-registered name leaves
the record unchanged.  `register_extension` tests the RAW class name
against keys stored lower-cased, so for the mixed-case name `Keywords` the
membership test never fires: re-registering over a loaded-and-enabled
record resets it to the fresh defaults — even though the name is
registered (case-insensitively) the whole time. -/
theorem register_extension_overwrite_bug :
    is_registered exStoreEnabled (str "Keywords") = true
      ∧ alistLookup (str "keywords") exStoreEnabled
          = some { loaded := true, enabled := true, enabled_for_im := true,
                   enabled_for_channels := [] }
      ∧ register_extension exStoreEnabled (str "Keywords")
          = [(str "keywords", freshRecord)] := by
  refine ⟨?_, ?_, ?_⟩ <;> rfl

/-- C9.  The claim says an admin's IM `extension load <name>` is handled
without raising.  `ExtensionManager.on_message` routes that prefix to
`self.extension_add`, a method the class never defines (the handler is
named `extension_load`), so the event handler raises `AttributeError`; and
even `extension_load` itself, called directly, raises `KeyError` on
`self.settings['extensions']` — the manager is loaded with empty settings,
and with the key present the lookup still uses the lower-cased name
against the `Keywords`-cased settings key. -/
theorem extension_load_attribute_error_bug :
    manager_on_message exUsersAdmin exStoreEnabled none (some (str "D1"))
        (fun _ => none) (fun _ _ => none) exEvLoad
      = Except.error PyErr.attributeError
      ∧ mgr_extension_load exUsersAdmin exStoreEnabled none (some (str "D1"))
          exEvLoad
          = Except.error PyErr.keyError
      ∧ mgr_extension_load exUsersAdmin exStoreEnabled
          (some [(str "Keywords", ())]) (some (str "D1")) exEvLoad
          = Except.error PyErr.keyError
      ∧ isAuthorized exUsersAdmin exEvLoad.user = true := by
  refine ⟨?_, ?_, ?_, ?_⟩ <;> rfl

/-- C10.  An ordinary inbound message (not stale, no handled subtype, not
the bot's own) is handed to exactly the extensions for which `is_enabled`
holds; the receiver list provably ignores `enabled_for_im` and
`enabled_for_channels` — any rewrite of those fields leaves it unchanged —
so `is_enabled_for` plays no role in dispatch. -/
theorem dispatcher_consults_only_is_enabled (store : ExtStore) (startT : Nat)
    (botU : Str) (etime : Nat) (ev : Event)
    (h1 : ¬ etime < startT)
    (h2 : ev.subtype ≠ some (str "message_deleted"))
    (h3 : ev.subtype ≠ some (str "message_changed"))
    (h4 : ev.user ≠ botU) :
    modbot_message store startT botU etime ev
        = Routed.messageHooks (enabled_receivers store)
      ∧ (∀ n r, (n, r) ∈ store → is_enabled store n = true →
          n ∈ enabled_receivers store)
      ∧ (∀ g : ExtRecord → ExtRecord, (∀ rec, (g rec).enabled = rec.enabled) →
          enabled_receivers (store.map (fun kv => (kv.1, g kv.2)))
            = enabled_receivers store) := by
  refine ⟨?_, ?_, ?_⟩
  · unfold modbot_message
    simp [h1, h2, h3, h4]
  · intro n rec hmem hen
    unfold enabled_receivers
    exact List.mem_map_of_mem _ (List.mem_filter.mpr ⟨hmem, by simpa using hen⟩)
  · exact fun g hg => enabled_receivers_map_value g hg store

/-- C10, witness: a concrete two-extension store where only the enabled
extension receives the event. -/
theorem dispatcher_consults_only_is_enabled_witness :
    modbot_message exStoreTwo 10 (str "B") 20 exEvIm
      = Routed.messageHooks (enabled_receivers exStoreTwo) :=
  (dispatcher_consults_only_is_enabled exStoreTwo 10 (str "B") 20 exEvIm
    (by decide) (by decide) (by decide) (by decide)).1

end Modbot
